import Mathlib

/-!
Verification of the GAN training engine (repository: sandrejev/GAN).

The repository holds two adversarial-training engines built on a tensor
runtime:

* `src/models/gan.py` — the selector-based engine: a `Model` whose
  constructor selects between two adversarial objectives
  (`LossFunction.NS_GAN`, `LossFunction.WGAN`, integers 0 and 1) and two
  gradient-penalty variants (`GradientPenalty.ZERO_CENTERED`,
  `GradientPenalty.ONE_CENTERED`, integers 0 and 1), raising `ValueError`
  on any other selector; its `train` loop stops on a short batch or on
  stream exhaustion, and its `reinitialize` initializes only variables
  that are not yet initialized.
* `src/gan.py` — the legacy engine: NS-GAN loss plus a one-centered
  gradient penalty hard-coded, with a training loop that stops only when
  the data source raises end-of-stream.

The embedding below models per-sample tensors as `List ℝ` (flattened over
the non-batch axes) and batches as `List (List ℝ)`.  Scores produced by
the discriminator and the gradients of the interpolated score with
respect to the interpolated input are opaque runtime outputs, so the loss
and penalty constructions are modelled as functions of those tensors.
-/

namespace GAN

/-- `tf.reduce_mean` over a per-sample value list: sum divided by length
(zero on an empty list, matching the convention `0 / 0 = 0` of `ℝ`). -/
noncomputable def mean (xs : List ℝ) : ℝ := xs.sum / xs.length

/-- `tf.nn.sigmoid_cross_entropy_with_logits` as documented and
implemented by the runtime: the numerically stable logit form
`max(x, 0) - x·z + log(1 + exp(-|x|))` for logits `x` and labels `z`. -/
noncomputable def sigmoid_cross_entropy_with_logits (x z : ℝ) : ℝ :=
  max x 0 - x * z + Real.log (1 + Real.exp (-|x|))

/-- Reference definition following the spec's words: the logistic sigmoid
`σ(x) = 1 / (1 + exp(-x))`, used only to state the reference BCE. -/
noncomputable def sigmoid (x : ℝ) : ℝ := 1 / (1 + Real.exp (-x))

/-- Reference definition following the spec's words: standard binary
cross-entropy on logits, `BCE(x, t) = -t·log(σ(x)) - (1-t)·log(1-σ(x))`,
the definition the stable logit form is cross-checked against. -/
noncomputable def BCE (x t : ℝ) : ℝ :=
  -(t * Real.log (sigmoid x)) - (1 - t) * Real.log (1 - sigmoid x)

namespace ModelsGan

/-- `Model.LossFunction.NS_GAN` in `src/models/gan.py` (`range(2)` makes
the selectors the integers 0 and 1). -/
def NS_GAN : ℕ := 0

/-- `Model.LossFunction.WGAN` in `src/models/gan.py`. -/
def WGAN : ℕ := 1

/-- `Model.GradientPenalty.ZERO_CENTERED` in `src/models/gan.py`. -/
def ZERO_CENTERED : ℕ := 0

/-- `Model.GradientPenalty.ONE_CENTERED` in `src/models/gan.py`. -/
def ONE_CENTERED : ℕ := 1

/-- `lerp(a, b, t) = a + (b - a) * t`, `src/models/gan.py` line 9. -/
def lerp (a b t : ℝ) : ℝ := a + (b - a) * t

/-- `self.lerped = lerp(self.reals, self.fakes, self.lerp_coefficients)`
(`src/models/gan.py` line 118): one coefficient `t` per sample, broadcast
elementwise over the flattened non-batch axes of the sample. -/
def lerpSample (reals fakes : List ℝ) (t : ℝ) : List ℝ :=
  List.zipWith (fun a b => lerp a b t) reals fakes

/-- The adversarial loss selection of `Model.__init__`
(`src/models/gan.py` lines 82-112): `NS_GAN` builds the sigmoid
cross-entropy losses, `WGAN` the Wasserstein losses, and any other
selector raises `ValueError("Invalid loss function")`.  The result pair
is `(generator_loss, discriminator_loss)` before the penalty term. -/
noncomputable def adversarialLosses (loss_function : ℕ)
    (real_logits fake_logits : List ℝ) : Except String (ℝ × ℝ) :=
  if loss_function = NS_GAN then
    Except.ok
      (mean (fake_logits.map fun x => sigmoid_cross_entropy_with_logits x 1),
       mean (real_logits.map fun x => sigmoid_cross_entropy_with_logits x 1)
         + mean (fake_logits.map fun x => sigmoid_cross_entropy_with_logits x 0))
  else if loss_function = WGAN then
    Except.ok (-(mean fake_logits), -(mean real_logits) + mean fake_logits)
  else
    Except.error "Invalid loss function"

/-- Per-sample slope, `src/models/gan.py` line 134:
`sqrt(reduce_sum(square(gradients), axis=[1,2,3]) + 0.0001)` applied to
one sample's gradient vector (flattened over axes 1..3). -/
noncomputable def slope (gradient : List ℝ) : ℝ :=
  Real.sqrt ((gradient.map fun x => x ^ 2).sum + 0.0001)

/-- `self.slopes` for the whole batch of interpolation gradients. -/
noncomputable def slopes (gradients : List (List ℝ)) : List ℝ :=
  gradients.map slope

/-- The gradient-penalty selection of `Model.__init__`
(`src/models/gan.py` lines 136-145): `ZERO_CENTERED` gives
`reduce_mean(square(slopes - 0.0))`, `ONE_CENTERED` gives
`reduce_mean(square(slopes - 1.0))`, any other selector raises
`ValueError("Invalid gradient penalty")`. -/
noncomputable def gradient_penalty (gp : ℕ)
    (gradients : List (List ℝ)) : Except String ℝ :=
  if gp = ZERO_CENTERED then
    Except.ok (mean ((slopes gradients).map fun s => (s - 0.0) ^ 2))
  else if gp = ONE_CENTERED then
    Except.ok (mean ((slopes gradients).map fun s => (s - 1.0) ^ 2))
  else
    Except.error "Invalid gradient penalty"

/-- The scalar losses owned by a constructed `Model`. -/
structure Losses where
  generator_loss : ℝ
  discriminator_loss : ℝ
  gradient_penalty : ℝ

/-- The loss construction of `Model.__init__` (`src/models/gan.py` lines
82-147), as a function of the score tensors and interpolation gradients
the runtime produces: select the adversarial losses (raising on an
invalid `loss_function`), then the penalty (raising on an invalid
`gradient_penalty`), then add
`gradient_penalty * gradient_coefficient` to the discriminator loss
(line 147).  An `Except.error` models the `ValueError` raised inside the
constructor, before any training step can run. -/
noncomputable def buildModel (loss_function gp : ℕ)
    (real_logits fake_logits : List ℝ) (gradients : List (List ℝ))
    (gradient_coefficient : ℝ) : Except String Losses :=
  match adversarialLosses loss_function real_logits fake_logits with
  | Except.error e => Except.error e
  | Except.ok (g, d) =>
    match gradient_penalty gp gradients with
    | Except.error e => Except.error e
    | Except.ok p =>
      Except.ok ⟨g, d + p * gradient_coefficient, p⟩

/-- Construction succeeded: `Model.__init__` returned without raising. -/
def constructionSucceeds (r : Except String Losses) : Prop :=
  ∃ l, r = Except.ok l

/-- The two step counters, `generator_global_step` and
`discriminator_global_step`, created with `tf.zeros_initializer()`
(`src/models/gan.py` lines 158-171). -/
structure TrainState where
  generator_global_step : ℕ
  discriminator_global_step : ℕ
deriving DecidableEq, Repr

/-- The counters' initial value: both zero. -/
def initState : TrainState := ⟨0, 0⟩

/-- One `session.run([generator_train_op, discriminator_train_op])`
(`src/models/gan.py` lines 322-325): each `minimize(..., global_step=...)`
op advances its own counter by exactly 1. -/
def applyTrainOps (s : TrainState) : TrainState :=
  ⟨s.generator_global_step + 1, s.discriminator_global_step + 1⟩

/-- How the training loop ends.  Both exits of `Model.train` are graceful
(`break` out of the loop, no exception escapes): the caught
`OutOfRangeError` of the data source, or a short final batch. -/
inductive ExitStatus
  | EXHAUSTED
deriving DecidableEq, Repr

/-- The iteration loop of `Model.train` (`src/models/gan.py` lines
291-325), abstracted over the stream of fetched batch sizes: an empty
stream models the data source raising `OutOfRangeError`; a batch whose
size differs from the configured `batch_size` hits the
`reals.shape[0] != batch_size` check (line 304) and breaks before any
update; otherwise both train ops run and the loop continues. -/
def train (batch_size : ℕ) : List ℕ → TrainState → TrainState × ExitStatus
  | [], s => (s, ExitStatus.EXHAUSTED)
  | b :: rest, s =>
    if b ≠ batch_size then (s, ExitStatus.EXHAUSTED)
    else train batch_size rest (applyTrainOps s)

/-- `Model.reinitialize` (`src/models/gan.py` lines 233-243): collect the
variables of the scope whose per-variable `is_variable_initialized` check
fails, and run the initializer on exactly that subset.  The store maps a
variable to `some` of its current value or `none` when uninitialized. -/
def reinit (global_variables : List ℕ) (initializer : ℕ → ℝ)
    (store : ℕ → Option ℝ) : ℕ → Option ℝ := fun v =>
  if v ∈ global_variables.filter (fun w => !(store w).isSome) then
    some (initializer v)
  else
    store v

end ModelsGan

namespace LegacyGan

/-- `self.generator_loss` of the legacy `Model.__init__` (`src/gan.py`
lines 47-49): mean sigmoid cross-entropy of the fake logits against
all-ones labels. -/
noncomputable def generator_loss (fake_logits : List ℝ) : ℝ :=
  mean (fake_logits.map fun x => sigmoid_cross_entropy_with_logits x 1)

/-- `slopes` of the legacy engine (`src/gan.py` line 63). -/
noncomputable def slopes (gradients : List (List ℝ)) : List ℝ :=
  gradients.map fun g => Real.sqrt ((g.map fun x => x ^ 2).sum + 0.0001)

/-- `self.gradient_penalty` of the legacy engine (`src/gan.py` line 65):
one-centered, `reduce_mean(square(slopes - 1.0))`. -/
noncomputable def gradient_penalty (gradients : List (List ℝ)) : ℝ :=
  mean ((slopes gradients).map fun s => (s - 1.0) ^ 2)

/-- `self.discriminator_loss` of the legacy engine (`src/gan.py` lines
51-66): cross-entropy on real logits against ones plus cross-entropy on
fake logits against zeros, plus `gradient_penalty * gradient_coefficient`. -/
noncomputable def discriminator_loss (real_logits fake_logits : List ℝ)
    (gradients : List (List ℝ)) (gradient_coefficient : ℝ) : ℝ :=
  mean (real_logits.map fun x => sigmoid_cross_entropy_with_logits x 1)
    + mean (fake_logits.map fun x => sigmoid_cross_entropy_with_logits x 0)
    + gradient_penalty gradients * gradient_coefficient

/-- `interpolates = reals + (fakes - reals) * interpolate_coefficients`
(`src/gan.py` line 59), one coefficient per sample broadcast over the
flattened sample. -/
def interpolates (reals fakes : List ℝ) (t : ℝ) : List ℝ :=
  List.zipWith (fun r f => r + (f - r) * t) reals fakes

/-- `session.run(self.generator_train_op, ...)` (`src/gan.py` line 151). -/
def runGeneratorTrainOp (s : ModelsGan.TrainState) : ModelsGan.TrainState :=
  ⟨s.generator_global_step + 1, s.discriminator_global_step⟩

/-- `session.run(self.discriminator_train_op, ...)` (`src/gan.py` line 152). -/
def runDiscriminatorTrainOp (s : ModelsGan.TrainState) : ModelsGan.TrainState :=
  ⟨s.generator_global_step, s.discriminator_global_step + 1⟩

/-- The iteration loop of the legacy `Model.train` (`src/gan.py` lines
136-200), abstracted over the stream of fetched batch sizes: the loop
body feeds whatever batch was fetched and runs both train ops — there is
no check of the fetched batch size against the configured `batch_size` —
and the loop ends only when the data source raises `OutOfRangeError`
(modelled by the stream running out). -/
def train (batch_size : ℕ) :
    List ℕ → ModelsGan.TrainState → ModelsGan.TrainState × ModelsGan.ExitStatus
  | [], s => (s, ModelsGan.ExitStatus.EXHAUSTED)
  | _ :: rest, s =>
    train batch_size rest (runDiscriminatorTrainOp (runGeneratorTrainOp s))

end LegacyGan

namespace Graph

/-- Nodes of the relevant subgraph: the normalization
running-statistics update ops collected from `tf.GraphKeys.UPDATE_OPS`,
and the two optimizer train ops. -/
inductive Node
  | updateOp : ℕ → Node
  | generatorTrainOp : Node
  | discriminatorTrainOp : Node
deriving DecidableEq, Repr

/-- The control inputs created by the
`with tf.control_dependencies(tf.get_collection(tf.GraphKeys.UPDATE_OPS))`
block wrapping both `minimize` calls (`src/models/gan.py` lines 190-202;
identically `src/gan.py` lines 81-95): every update op becomes a control
input of each train op; update ops have none. -/
def control_inputs (update_ops : List ℕ) : Node → List Node
  | Node.updateOp _ => []
  | Node.generatorTrainOp => update_ops.map Node.updateOp
  | Node.discriminatorTrainOp => update_ops.map Node.updateOp

/-- A schedule (execution order of the graph nodes in one `session.run`)
respects control dependencies when every control input of a scheduled
node executes strictly earlier. -/
def respectsControlDeps (update_ops : List ℕ) (sched : List Node) : Prop :=
  ∀ j : Fin sched.length, ∀ d ∈ control_inputs update_ops (sched.get j),
    ∃ i : Fin sched.length, i.val < j.val ∧ sched.get i = d

instance (update_ops : List ℕ) (sched : List Node) :
    Decidable (respectsControlDeps update_ops sched) := by
  unfold respectsControlDeps
  infer_instance

end Graph

/-!
Lemmas.  First the analytic facts about the sigmoid cross-entropy
primitive, then the behaviour of the two training loops.
-/

lemma one_add_exp_pos (x : ℝ) : 0 < 1 + Real.exp x := by positivity

lemma log_sigmoid (x : ℝ) :
    Real.log (sigmoid x) = -Real.log (1 + Real.exp (-x)) := by
  rw [sigmoid, one_div, Real.log_inv]

lemma one_sub_sigmoid (x : ℝ) :
    1 - sigmoid x = Real.exp (-x) / (1 + Real.exp (-x)) := by
  have h : (1 + Real.exp (-x)) ≠ 0 := ne_of_gt (one_add_exp_pos (-x))
  rw [sigmoid]
  field_simp

lemma log_one_sub_sigmoid (x : ℝ) :
    Real.log (1 - sigmoid x) = -x - Real.log (1 + Real.exp (-x)) := by
  rw [one_sub_sigmoid, Real.log_div (Real.exp_ne_zero _) (ne_of_gt (one_add_exp_pos (-x))),
    Real.log_exp]

/-- The stable logit form computed by the runtime primitive coincides with
the spec's reference binary cross-entropy, for every logit and label. -/
lemma sigmoid_cross_entropy_with_logits_eq_BCE (x t : ℝ) :
    sigmoid_cross_entropy_with_logits x t = BCE x t := by
  rw [BCE, log_sigmoid, log_one_sub_sigmoid, sigmoid_cross_entropy_with_logits]
  rcases le_or_lt 0 x with hx | hx
  · rw [abs_of_nonneg hx, max_eq_left hx]
    ring
  · rw [abs_of_neg hx, max_eq_right (le_of_lt hx), neg_neg]
    have hsplit : Real.log (1 + Real.exp (-x)) = -x + Real.log (1 + Real.exp x) := by
      have hmul : 1 + Real.exp (-x) = Real.exp (-x) * (1 + Real.exp x) := by
        have h1 : Real.exp (-x) * Real.exp x = 1 := by
          rw [← Real.exp_add]
          simp
        rw [mul_add, mul_one, h1]
        ring
      rw [hmul, Real.log_mul (Real.exp_ne_zero _) (ne_of_gt (one_add_exp_pos x)), Real.log_exp]
    rw [hsplit]
    ring

lemma sce_one_nonneg (x : ℝ) : 0 ≤ sigmoid_cross_entropy_with_logits x 1 := by
  rw [sigmoid_cross_entropy_with_logits]
  have h1 : 0 ≤ Real.log (1 + Real.exp (-|x|)) := by
    apply Real.log_nonneg
    nlinarith [Real.exp_pos (-|x|)]
  have h2 : x ≤ max x 0 := le_max_left x 0
  nlinarith

lemma sce_zero_nonneg (x : ℝ) : 0 ≤ sigmoid_cross_entropy_with_logits x 0 := by
  rw [sigmoid_cross_entropy_with_logits]
  have h1 : 0 ≤ Real.log (1 + Real.exp (-|x|)) := by
    apply Real.log_nonneg
    nlinarith [Real.exp_pos (-|x|)]
  have h2 : (0 : ℝ) ≤ max x 0 := le_max_right x 0
  nlinarith

lemma mean_nonneg (xs : List ℝ) (h : ∀ x ∈ xs, 0 ≤ x) : 0 ≤ mean xs := by
  rw [mean]
  exact div_nonneg (List.sum_nonneg h) (by positivity)

namespace ModelsGan

lemma train_mono (batch_size : ℕ) (stream : List ℕ) (s : TrainState) :
    s.generator_global_step ≤ (train batch_size stream s).1.generator_global_step
    ∧ s.discriminator_global_step
        ≤ (train batch_size stream s).1.discriminator_global_step := by
  induction stream generalizing s with
  | nil => simp [train]
  | cons b rest ih =>
    simp only [train]
    split_ifs with h
    · exact ⟨le_refl _, le_refl _⟩
    · have hrec := ih (applyTrainOps s)
      exact ⟨le_trans (Nat.le_succ _) hrec.1, le_trans (Nat.le_succ _) hrec.2⟩

lemma train_replicate (batch_size k : ℕ) (s : TrainState) :
    train batch_size (List.replicate k batch_size) s
      = (⟨s.generator_global_step + k, s.discriminator_global_step + k⟩,
         ExitStatus.EXHAUSTED) := by
  induction k generalizing s with
  | zero => simp [train]
  | succ n ih =>
    rw [List.replicate_succ]
    simp only [train]
    rw [if_neg (not_not_intro rfl)]
    rw [ih (applyTrainOps s)]
    simp only [applyTrainOps, Prod.mk.injEq, TrainState.mk.injEq]
    refine ⟨⟨by omega, by omega⟩, trivial⟩

lemma train_append_short (batch_size k b : ℕ) (rest : List ℕ)
    (hb : b ≠ batch_size) (s : TrainState) :
    train batch_size (List.replicate k batch_size ++ b :: rest) s
      = (⟨s.generator_global_step + k, s.discriminator_global_step + k⟩,
         ExitStatus.EXHAUSTED) := by
  induction k generalizing s with
  | zero =>
    simp only [List.replicate, List.nil_append, train]
    rw [if_pos hb]
    simp
  | succ n ih =>
    rw [List.replicate_succ, List.cons_append]
    simp only [train]
    rw [if_neg (not_not_intro rfl)]
    rw [ih (applyTrainOps s)]
    simp only [applyTrainOps, Prod.mk.injEq, TrainState.mk.injEq]
    refine ⟨⟨by omega, by omega⟩, trivial⟩

lemma reinit_isSome (global_variables : List ℕ) (initializer : ℕ → ℝ)
    (store : ℕ → Option ℝ) (v : ℕ) (hv : v ∈ global_variables) :
    (reinit global_variables initializer store v).isSome := by
  rw [reinit]
  by_cases h : (store v).isSome
  · split_ifs <;> simp [h]
  · have hm : v ∈ global_variables.filter (fun w => !(store w).isSome) := by
      rw [List.mem_filter]
      exact ⟨hv, by simp [h]⟩
    rw [if_pos hm]
    simp

end ModelsGan

namespace LegacyGan

lemma legacy_train_counts (batch_size : ℕ) (stream : List ℕ)
    (s : ModelsGan.TrainState) :
    (LegacyGan.train batch_size stream s).1
      = ⟨s.generator_global_step + stream.length,
         s.discriminator_global_step + stream.length⟩ := by
  induction stream generalizing s with
  | nil => simp [LegacyGan.train]
  | cons b rest ih =>
    simp only [LegacyGan.train]
    rw [ih]
    simp only [runGeneratorTrainOp, runDiscriminatorTrainOp,
      ModelsGan.TrainState.mk.injEq, List.length_cons]
    constructor <;> omega

end LegacyGan

/-!
Claim theorems.
-/

/-- Claim C2: with the NS_GAN objective selected, the generator loss is
the mean binary cross-entropy of the fake scores against target 1, and
the discriminator loss is the mean BCE of the real scores against
target 1 plus the mean BCE of the fake scores against target 0, where the
engine computes BCE in the numerically stable logit form; the resulting
discriminator loss (before the gradient-penalty term) is nonnegative. -/
theorem C2_ns_gan_losses (real_logits fake_logits : List ℝ) :
    ModelsGan.adversarialLosses ModelsGan.NS_GAN real_logits fake_logits
      = Except.ok
          (mean (fake_logits.map fun x => BCE x 1),
           mean (real_logits.map fun x => BCE x 1)
             + mean (fake_logits.map fun x => BCE x 0))
    ∧ ∃ g d,
        ModelsGan.adversarialLosses ModelsGan.NS_GAN real_logits fake_logits
          = Except.ok (g, d) ∧ 0 ≤ d := by
  have hmain :
      ModelsGan.adversarialLosses ModelsGan.NS_GAN real_logits fake_logits
        = Except.ok
            (mean (fake_logits.map fun x => sigmoid_cross_entropy_with_logits x 1),
             mean (real_logits.map fun x => sigmoid_cross_entropy_with_logits x 1)
               + mean (fake_logits.map fun x => sigmoid_cross_entropy_with_logits x 0)) := by
    rw [ModelsGan.adversarialLosses, if_pos rfl]
  constructor
  · rw [hmain]
    simp only [sigmoid_cross_entropy_with_logits_eq_BCE]
  · refine ⟨_, _, hmain, ?_⟩
    apply add_nonneg
    · apply mean_nonneg
      intro x hx
      rcases List.mem_map.mp hx with ⟨y, _, rfl⟩
      exact sce_one_nonneg y
    · apply mean_nonneg
      intro x hx
      rcases List.mem_map.mp hx with ⟨y, _, rfl⟩
      exact sce_zero_nonneg y

/-- Claim C3: with the WGAN objective selected, the generator loss is
`-mean(fake_score)` and the discriminator loss is
`mean(fake_score) - mean(real_score)`; the generator loss is unbounded in
sign, witnessed by the fact that it attains every real value (no clipping
is applied anywhere in the construction). -/
theorem C3_wgan_losses (real_logits fake_logits : List ℝ) :
    ModelsGan.adversarialLosses ModelsGan.WGAN real_logits fake_logits
      = Except.ok (-(mean fake_logits), mean fake_logits - mean real_logits)
    ∧ ∀ r : ℝ, ∃ fs : List ℝ,
        ModelsGan.adversarialLosses ModelsGan.WGAN real_logits fs
          = Except.ok (r, mean fs - mean real_logits) := by
  have hw : ∀ fs : List ℝ,
      ModelsGan.adversarialLosses ModelsGan.WGAN real_logits fs
        = Except.ok (-(mean fs), mean fs - mean real_logits) := by
    intro fs
    rw [ModelsGan.adversarialLosses,
      if_neg (by simp [ModelsGan.WGAN, ModelsGan.NS_GAN]), if_pos rfl,
      neg_add_eq_sub]
  refine ⟨hw fake_logits, fun r => ⟨[-r], ?_⟩⟩
  have hm : mean [-r] = -r := by simp [mean]
  rw [hw [-r], hm, neg_neg]

/-- Claim C9: with `gradient_coefficient = 0`, the constructed
discriminator loss equals the base adversarial loss term exactly — the
penalty term contributes exactly zero — for every loss function and
gradient-penalty kind that construct successfully. -/
theorem C9_zero_gradient_coefficient (loss_function gp : ℕ)
    (real_logits fake_logits : List ℝ) (gradients : List (List ℝ)) (g d p : ℝ)
    (hbase : ModelsGan.adversarialLosses loss_function real_logits fake_logits
      = Except.ok (g, d))
    (hp : ModelsGan.gradient_penalty gp gradients = Except.ok p) :
    ModelsGan.buildModel loss_function gp real_logits fake_logits gradients 0
      = Except.ok ⟨g, d, p⟩ := by
  simp only [ModelsGan.buildModel, hbase, hp, mul_zero, add_zero]

/-- Witness for C9 at a concrete configuration: NS_GAN with the
one-centered penalty on empty batches. -/
theorem C9_witness :
    ModelsGan.buildModel ModelsGan.NS_GAN ModelsGan.ONE_CENTERED [] [] [] 0
      = Except.ok ⟨0, 0, 0⟩ :=
  C9_zero_gradient_coefficient ModelsGan.NS_GAN ModelsGan.ONE_CENTERED [] [] [] 0 0 0
    (by simp [ModelsGan.adversarialLosses, mean])
    (by simp [ModelsGan.gradient_penalty, ModelsGan.ZERO_CENTERED,
      ModelsGan.ONE_CENTERED, ModelsGan.slopes, mean])

/-- Claim C10: on the same real and fake logits, interpolation
coefficients, interpolation gradients and gradient coefficient, the
legacy engine (src/gan.py) constructs exactly the same generator loss,
discriminator loss (gradient-penalty term included) and interpolated
samples as the selector-based engine (src/models/gan.py) configured with
`loss_function = NS_GAN` and `gradient_penalty = ONE_CENTERED`. -/
theorem C10_legacy_matches_selector_engine (real_logits fake_logits : List ℝ)
    (gradients : List (List ℝ)) (gradient_coefficient : ℝ)
    (reals fakes : List ℝ) (t : ℝ) :
    ModelsGan.buildModel ModelsGan.NS_GAN ModelsGan.ONE_CENTERED real_logits
        fake_logits gradients gradient_coefficient
      = Except.ok
          ⟨LegacyGan.generator_loss fake_logits,
           LegacyGan.discriminator_loss real_logits fake_logits gradients
             gradient_coefficient,
           LegacyGan.gradient_penalty gradients⟩
    ∧ ModelsGan.lerpSample reals fakes t = LegacyGan.interpolates reals fakes t := by
  constructor
  · have hbase :
        ModelsGan.adversarialLosses ModelsGan.NS_GAN real_logits fake_logits
          = Except.ok
              (mean (fake_logits.map fun x => sigmoid_cross_entropy_with_logits x 1),
               mean (real_logits.map fun x => sigmoid_cross_entropy_with_logits x 1)
                 + mean (fake_logits.map fun x => sigmoid_cross_entropy_with_logits x 0)) := by
      rw [ModelsGan.adversarialLosses, if_pos rfl]
    have hp :
        ModelsGan.gradient_penalty ModelsGan.ONE_CENTERED gradients
          = Except.ok
              (mean ((ModelsGan.slopes gradients).map fun s => (s - 1.0) ^ 2)) := by
      rw [ModelsGan.gradient_penalty,
        if_neg (by simp [ModelsGan.ONE_CENTERED, ModelsGan.ZERO_CENTERED]), if_pos rfl]
    simp only [ModelsGan.buildModel, hbase, hp]
    rfl
  · rfl

/-- Claim C1: for every real batch, fake batch, per-sample interpolation
coefficient in `[0, 1]`, gradient tensor and gradient coefficient: the
interpolated sample is `real + t·(fake − real)` elementwise; the
per-sample slope is `sqrt(sum of squared gradients + 1e-4)` with the
epsilon added unconditionally; the penalty is `mean(slope²)` under
ZERO_CENTERED and `mean((slope − 1)²)` under ONE_CENTERED; and the
contribution the construction adds to the discriminator loss is
`gradient_coefficient · penalty`. -/
theorem C1_gradient_penalty_construction (reals fakes : List ℝ) (t : ℝ)
    (ht0 : 0 ≤ t) (ht1 : t ≤ 1) (gradient : List ℝ)
    (gradients : List (List ℝ)) (loss_function gp : ℕ)
    (real_logits fake_logits : List ℝ) (gradient_coefficient : ℝ) :
    ModelsGan.lerpSample reals fakes t
      = List.zipWith (fun r f => r + t * (f - r)) reals fakes
    ∧ ModelsGan.slope gradient
      = Real.sqrt ((gradient.map fun x => x ^ 2).sum + 1e-4)
    ∧ ModelsGan.gradient_penalty ModelsGan.ZERO_CENTERED gradients
      = Except.ok (mean ((ModelsGan.slopes gradients).map fun s => s ^ 2))
    ∧ ModelsGan.gradient_penalty ModelsGan.ONE_CENTERED gradients
      = Except.ok (mean ((ModelsGan.slopes gradients).map fun s => (s - 1) ^ 2))
    ∧ ∀ g d p,
        ModelsGan.adversarialLosses loss_function real_logits fake_logits
          = Except.ok (g, d)
        → ModelsGan.gradient_penalty gp gradients = Except.ok p
        → ModelsGan.buildModel loss_function gp real_logits fake_logits
            gradients gradient_coefficient
          = Except.ok ⟨g, d + gradient_coefficient * p, p⟩ := by
  refine ⟨?_, ?_, ?_, ?_, ?_⟩
  · have hfun : (fun a b => ModelsGan.lerp a b t)
        = fun r f : ℝ => r + t * (f - r) := by
      funext a b
      rw [ModelsGan.lerp]
      ring
    rw [ModelsGan.lerpSample, hfun]
  · rw [ModelsGan.slope]
  · rw [ModelsGan.gradient_penalty, if_pos rfl]
    have hfun : (fun s : ℝ => (s - 0.0) ^ 2) = fun s : ℝ => s ^ 2 := by
      funext s
      norm_num
    rw [hfun]
  · rw [ModelsGan.gradient_penalty,
      if_neg (by simp [ModelsGan.ONE_CENTERED, ModelsGan.ZERO_CENTERED]), if_pos rfl]
    have hfun : (fun s : ℝ => (s - 1.0) ^ 2) = fun s : ℝ => (s - 1) ^ 2 := by
      funext s
      norm_num
    rw [hfun]
  · intro g d p hbase hp
    simp only [ModelsGan.buildModel, hbase, hp, mul_comm]

/-- Witness for C1: interpolation coefficient 1/2 between the
one-element samples 0 and 2 yields the midpoint construction. -/
theorem C1_witness :
    (0 ≤ (1 / 2 : ℝ) ∧ (1 / 2 : ℝ) ≤ 1)
    ∧ ModelsGan.lerpSample [0] [2] (1 / 2)
        = List.zipWith (fun r f => r + (1 / 2 : ℝ) * (f - r)) [0] [2] :=
  ⟨⟨by norm_num, by norm_num⟩,
   (C1_gradient_penalty_construction [0] [2] (1 / 2) (by norm_num) (by norm_num)
      [0] [] ModelsGan.NS_GAN ModelsGan.ONE_CENTERED [] [] 0).1⟩

/-- Claim C4: both step counters start at 0, each optimizer-update call
increments its own counter by exactly 1, the counters never decrease
across any run of the loop, and after exactly `k` completed iterations
with no EXHAUSTED transition (a stream of `k` full batches) both counters
equal `k`, with exactly one full update applied to each network per
iteration. -/
theorem C4_step_counters (batch_size k : ℕ) :
    ModelsGan.initState.generator_global_step = 0
    ∧ ModelsGan.initState.discriminator_global_step = 0
    ∧ (∀ s, (ModelsGan.applyTrainOps s).generator_global_step
          = s.generator_global_step + 1
        ∧ (ModelsGan.applyTrainOps s).discriminator_global_step
          = s.discriminator_global_step + 1)
    ∧ (∀ (stream : List ℕ) (s : ModelsGan.TrainState),
        s.generator_global_step
          ≤ (ModelsGan.train batch_size stream s).1.generator_global_step
        ∧ s.discriminator_global_step
          ≤ (ModelsGan.train batch_size stream s).1.discriminator_global_step)
    ∧ ModelsGan.train batch_size (List.replicate k batch_size) ModelsGan.initState
        = (⟨k, k⟩, ModelsGan.ExitStatus.EXHAUSTED) := by
  refine ⟨rfl, rfl, fun s => ⟨rfl, rfl⟩,
    fun stream s => ModelsGan.train_mono batch_size stream s, ?_⟩
  rw [ModelsGan.train_replicate]
  simp [ModelsGan.initState]

/-- Claim C5 counterexample: the claim is false of the legacy engine's
loop (src/gan.py lines 136-200), which its sources cite.  With configured
batch size 2 and a stream consisting of one short batch of 1 sample, the
legacy loop — which never compares the fetched batch size with the
configured one — applies both optimizer updates to the short batch, so
both step counters reach 1 instead of staying at 0. -/
theorem C5_counterexample :
    1 < 2
    ∧ (LegacyGan.train 2 [1] ModelsGan.initState).1
        = ⟨1, 1⟩ := by decide

/-- Claim C5 as amended: in the selector-based engine
(src/models/gan.py), a short batch or source exhaustion transitions the
loop to EXHAUSTED gracefully, with no generator or discriminator update
applied for that short batch (the first conjunct: the loop run over `k`
full batches followed by a short batch stops with both counters still at
`k`, ignoring the rest of the stream; the second: exhaustion is graceful
with no update).  The legacy engine (src/gan.py) stops only on source
exhaustion: it applies exactly one update per fetched batch, short or
not (the third conjunct). -/
theorem C5_short_batch_amended (batch_size k b : ℕ) (rest : List ℕ)
    (hb : b < batch_size) :
    ModelsGan.train batch_size (List.replicate k batch_size ++ b :: rest)
        ModelsGan.initState
      = (⟨k, k⟩, ModelsGan.ExitStatus.EXHAUSTED)
    ∧ (∀ s, ModelsGan.train batch_size [] s = (s, ModelsGan.ExitStatus.EXHAUSTED))
    ∧ ∀ (s : ModelsGan.TrainState) (stream : List ℕ),
        (LegacyGan.train batch_size stream s).1
          = ⟨s.generator_global_step + stream.length,
             s.discriminator_global_step + stream.length⟩ := by
  refine ⟨?_, fun s => rfl, fun s stream => LegacyGan.legacy_train_counts _ _ _⟩
  rw [ModelsGan.train_append_short batch_size k b rest (Nat.ne_of_lt hb)]
  simp [ModelsGan.initState]

/-- Witness for the amended C5: one full batch of size 2, then a short
batch of 1, then more data; the loop stops at counters (1, 1). -/
theorem C5_witness :
    (1 : ℕ) < 2
    ∧ ModelsGan.train 2 (List.replicate 1 2 ++ 1 :: [2]) ModelsGan.initState
        = (⟨1, 1⟩, ModelsGan.ExitStatus.EXHAUSTED) :=
  ⟨by decide, (C5_short_batch_amended 2 1 1 [2] (by decide)).1⟩

/-- Claim C6: in every schedule of one iteration's graph execution that
respects the control dependencies built by the engine (both train ops
carry every collected normalization-statistics update op as a control
input), every running-statistics update op executes strictly before the
generator's parameter update and strictly before the discriminator's
parameter update. -/
theorem C6_update_ordering (update_ops : List ℕ) (sched : List Graph.Node)
    (h : Graph.respectsControlDeps update_ops sched)
    (j : Fin sched.length)
    (hj : sched.get j = Graph.Node.generatorTrainOp
      ∨ sched.get j = Graph.Node.discriminatorTrainOp)
    (u : ℕ) (hu : u ∈ update_ops) :
    ∃ i : Fin sched.length,
      i.val < j.val ∧ sched.get i = Graph.Node.updateOp u := by
  have hd : Graph.Node.updateOp u
      ∈ Graph.control_inputs update_ops (sched.get j) := by
    rcases hj with hj | hj <;> rw [hj] <;>
      exact List.mem_map_of_mem Graph.Node.updateOp hu
  exact h j _ hd

/-- Witness for C6: the schedule that runs the single update op first,
then both train ops, respects the dependencies, and the update op indeed
precedes the generator train op placed at position 2. -/
theorem C6_witness :
    Graph.respectsControlDeps [0]
      [Graph.Node.updateOp 0, Graph.Node.discriminatorTrainOp,
       Graph.Node.generatorTrainOp]
    ∧ ∃ i : Fin ([Graph.Node.updateOp 0, Graph.Node.discriminatorTrainOp,
        Graph.Node.generatorTrainOp] : List Graph.Node).length,
        i.val < 2
        ∧ ([Graph.Node.updateOp 0, Graph.Node.discriminatorTrainOp,
            Graph.Node.generatorTrainOp] : List Graph.Node).get i
          = Graph.Node.updateOp 0 :=
  ⟨by decide,
   C6_update_ordering [0]
     [Graph.Node.updateOp 0, Graph.Node.discriminatorTrainOp,
      Graph.Node.generatorTrainOp]
     (by decide) ⟨2, by decide⟩ (Or.inl rfl) 0 (by decide)⟩

lemma adversarialLosses_ok_iff (loss_function : ℕ)
    (real_logits fake_logits : List ℝ) :
    (∃ v, ModelsGan.adversarialLosses loss_function real_logits fake_logits
        = Except.ok v)
      ↔ (loss_function = ModelsGan.NS_GAN ∨ loss_function = ModelsGan.WGAN) := by
  rw [ModelsGan.adversarialLosses]
  split_ifs with h1 h2
  · simp [h1]
  · simp [h2]
  · simp [h1, h2]

lemma gradient_penalty_ok_iff (gp : ℕ) (gradients : List (List ℝ)) :
    (∃ v, ModelsGan.gradient_penalty gp gradients = Except.ok v)
      ↔ (gp = ModelsGan.ZERO_CENTERED ∨ gp = ModelsGan.ONE_CENTERED) := by
  rw [ModelsGan.gradient_penalty]
  split_ifs with h1 h2
  · simp [h1]
  · simp [h2]
  · simp [h1, h2]

/-- Claim C7: construction raises a configuration error exactly for the
selector values outside the recognized sets — an unrecognized
`loss_function` (outside {NS_GAN, WGAN}) or an unrecognized
`gradient_penalty` (outside {ZERO_CENTERED, ONE_CENTERED}) makes
`Model.__init__` raise synchronously, before any training step can run,
while every pair of recognized selectors constructs without error. -/
theorem C7_selector_validation (loss_function gp : ℕ)
    (real_logits fake_logits : List ℝ) (gradients : List (List ℝ))
    (gradient_coefficient : ℝ) :
    ModelsGan.constructionSucceeds
        (ModelsGan.buildModel loss_function gp real_logits fake_logits gradients
          gradient_coefficient)
      ↔ ((loss_function = ModelsGan.NS_GAN ∨ loss_function = ModelsGan.WGAN)
          ∧ (gp = ModelsGan.ZERO_CENTERED ∨ gp = ModelsGan.ONE_CENTERED)) := by
  constructor
  · rintro ⟨l, hl⟩
    simp only [ModelsGan.buildModel] at hl
    cases hA : ModelsGan.adversarialLosses loss_function real_logits fake_logits with
    | error e =>
      rw [hA] at hl
      simp at hl
    | ok v =>
      rw [hA] at hl
      obtain ⟨g, d⟩ := v
      cases hP : ModelsGan.gradient_penalty gp gradients with
      | error e =>
        rw [hP] at hl
        simp at hl
      | ok p =>
        exact ⟨(adversarialLosses_ok_iff loss_function real_logits fake_logits).mp
            ⟨_, hA⟩,
          (gradient_penalty_ok_iff gp gradients).mp ⟨_, hP⟩⟩
  · rintro ⟨hlf, hgp⟩
    obtain ⟨⟨g, d⟩, hA⟩ :=
      (adversarialLosses_ok_iff loss_function real_logits fake_logits).mpr hlf
    obtain ⟨p, hP⟩ := (gradient_penalty_ok_iff gp gradients).mpr hgp
    refine ⟨⟨g, d + p * gradient_coefficient, p⟩, ?_⟩
    simp only [ModelsGan.buildModel, hA, hP]

/-- Claim C8: `reinitialize()` leaves every already-initialized variable
untouched (first conjunct: a variable holding a value keeps exactly that
value) and initializes only the currently uninitialized subset, so a
second call in a row changes nothing (second conjunct: idempotence). -/
theorem C8_reinit_idempotent (global_variables : List ℕ)
    (initializer : ℕ → ℝ) (store : ℕ → Option ℝ) :
    (∀ v x, store v = some x
      → ModelsGan.reinit global_variables initializer store v = some x)
    ∧ ModelsGan.reinit global_variables initializer
        (ModelsGan.reinit global_variables initializer store)
      = ModelsGan.reinit global_variables initializer store := by
  constructor
  · intro v x hv
    have hmem : v ∉ global_variables.filter (fun w => !(store w).isSome) := by
      intro hm
      rw [List.mem_filter] at hm
      simp [hv] at hm
    simp only [ModelsGan.reinit]
    rw [if_neg hmem]
    exact hv
  · funext v
    have hmem : v ∉ global_variables.filter
        (fun w => !(ModelsGan.reinit global_variables initializer store w).isSome) := by
      intro hm
      rw [List.mem_filter] at hm
      have hsome :=
        ModelsGan.reinit_isSome global_variables initializer store v hm.1
      simp [hsome] at hm
    show (if v ∈ global_variables.filter
          (fun w => !(ModelsGan.reinit global_variables initializer store w).isSome)
        then some (initializer v)
        else ModelsGan.reinit global_variables initializer store v)
      = ModelsGan.reinit global_variables initializer store v
    rw [if_neg hmem]

/-- Witness for C8: variable 0 already holds the value 2; after
reinitializing over scope {0, 1} it still holds exactly 2. -/
theorem C8_witness :
    ModelsGan.reinit [0, 1] (fun _ => 5)
        (fun v => if v = 0 then some (2 : ℝ) else none) 0
      = some 2 :=
  (C8_reinit_idempotent [0, 1] (fun _ => 5)
      (fun v => if v = 0 then some (2 : ℝ) else none)).1 0 2 (by simp)

end GAN
